import Mathlib

/-!
Shallow embedding of `include/pgbar/pgbar.hpp` (single-header progress bar).

Machine integers: the C++ code works on `__detail::SizeT = size_t` (64-bit
unsigned).  We model values as `Nat` and insert `% 2^64` exactly where the
C++ arithmetic can wrap (`counter_iterator::operator++`, `operator+=`, the
chrono-duration sum in `show_rate`).  Comparisons and subtractions that the
source guards against wrap are modelled with the same guard structure.

Doubles: `num_percent`, the rate thresholds and the bar-suppression test are
C++ `double`s; they are modelled by exact rationals (`ℚ`).  Every concrete
value exercised by the claims is far from a binary-rounding boundary.

Real time: `std::chrono::system_clock::now()` is modelled by an explicit
`now : Nat` (nanoseconds) parameter to `rendering`; the two `now()` calls
inside one `rendering()` invocation are modelled as the same instant.
-/

/-- 2^64, the modulus of `size_t` (`__detail::SizeT`) arithmetic. -/
def wordSize : Nat := 2 ^ 64

/-- `__detail::counter_iterator` (pgbar.hpp lines 167-218): a task counter
holding `num_tasks_`, `step_`, `current_`. -/
structure CounterIt where
  num_tasks : Nat
  step : Nat
  current : Nat
deriving DecidableEq, Repr

/-- `counter_iterator::is_ended` (lines 187-190):
`current_ >= num_tasks_ || num_tasks_ - current_ < step_`.
The `||` short-circuits, so the unsigned subtraction is only evaluated when
`current_ < num_tasks_`, in which case it cannot wrap; `Nat` truncated
subtraction therefore coincides with the C++ value in every evaluated case. -/
def CounterIt.is_ended (c : CounterIt) : Bool :=
  decide (c.num_tasks ≤ c.current) || decide (c.num_tasks - c.current < c.step)

/-- `counter_iterator::operator++` (lines 198-200): `current_ += step_`,
unsigned wrap-around addition, no clamping. -/
def CounterIt.inc (c : CounterIt) : CounterIt :=
  { c with current := (c.current + c.step) % wordSize }

/-- `counter_iterator::operator+=` (lines 201-204):
`current_ = (current_ + inc) > num_tasks_ ? num_tasks_ : (current_ + inc)`. -/
def CounterIt.incBy (c : CounterIt) (n : Nat) : CounterIt :=
  let sum := (c.current + n) % wordSize
  { c with current := if c.num_tasks < sum then c.num_tasks else sum }

/-- `counter_iterator::operator=(value_type)` (lines 209-211): `current_ = _num`. -/
def CounterIt.assign (c : CounterIt) (n : Nat) : CounterIt :=
  { c with current := n }

/-- `counter_iterator::set_step` (lines 212-214). -/
def CounterIt.set_step (c : CounterIt) (s : Nat) : CounterIt :=
  { c with step := s }

/-- `counter_iterator::set_task` (lines 215-217). -/
def CounterIt.set_task (c : CounterIt) (t : Nat) : CounterIt :=
  { c with num_tasks := t }

/-- The five-field enable bitmask `style::Type` as used through
`pgbar::bit_index { bar, per, cnt, rate, timer }`. -/
structure Ctrl where
  bar : Bool
  per : Bool
  cnt : Bool
  rate : Bool
  timer : Bool
deriving DecidableEq, Repr

/-- `style::entire`: all five fields enabled. -/
def ctrlEntire : Ctrl := ⟨true, true, true, true, true⟩

/-- `ratio_len = sizeof("100.00%") - 1` (line 474). -/
def ratio_len : Nat := 7

/-- `time_len = sizeof("9.9m < 9.9m") - 1` (line 475). -/
def time_len : Nat := 11

/-- `rate_len = sizeof("999.99 kHz") - 1` (line 476). -/
def rate_len : Nat := 10

/-- `pgbar::division`, the field divider (line 1085). -/
def division : String := " | "

/-- The error kinds of `bad_pgbar` relevant to the claims:
"updating a full progress bar" (InvalidState) and
"the number of tasks is zero" / "zero step_" (InvalidConfig). -/
inductive PgErr where
  | invalidState
  | invalidConfig
deriving DecidableEq, Repr

/-- The per-instance state of a `pgbar<StreamObj, RenderMode>` object
(lines 483-498): the `update_flag_`, the style configuration, the counter
and the derived lengths.  The renderer object and output stream are modelled
separately (`Singlethread`, `rendering`). -/
structure Pgbar where
  update_flag : Bool
  option : Ctrl
  todo_col : String
  done_col : String
  status_col : String
  todo_ch : String
  done_ch : String
  startpoint : String
  endpoint : String
  lstatus : String
  rstatus : String
  task_cnt : CounterIt
  bar_length : Nat
  cnt_length : Nat
  status_length : Nat
  in_tty : Bool
deriving DecidableEq, Repr

/-- Fueled base-10 floor logarithm.  `Nat.log` is defined by well-founded
recursion and does not evaluate inside the kernel; this structural version
does, and `log10fuel_eq_log` certifies it against `Nat.log 10`. -/
def log10fuel : Nat → Nat → Nat
  | 0, _ => 0
  | f + 1, n => if n < 10 then 0 else log10fuel f (n / 10) + 1

/-- `⌊log10 n⌋`, kernel-computable. -/
def log10floor (n : Nat) : Nat := log10fuel n n

/-- `static_cast<SizeT>(std::log10(total) + 1) * 2 + 1` (lines 822-824);
for `total ≥ 1` the cast truncation equals `⌊log10 total⌋ + 1`.
(`total = 0` is undefined behaviour in the source; the model yields 3.) -/
def cntLengthOf (total : Nat) : Nat := (log10floor total + 1) * 2 + 1

/-- The number of enabled status fields, `status_num` in `init_length`. -/
def statusNum (o : Ctrl) : Nat :=
  (if o.per then 1 else 0) + (if o.cnt then 1 else 0)
    + (if o.rate then 1 else 0) + (if o.timer then 1 else 0)

/-- The status-bar width computed by `pgbar::init_length` (lines 826-837). -/
def statusLengthOf (o : Ctrl) (cnt_len ls rs : Nat) : Nat :=
  let base := (if o.per then ratio_len else 0) + (if o.cnt then cnt_len else 0)
    + (if o.rate then rate_len else 0) + (if o.timer then time_len else 0)
  if base = 0 then 0
  else base + ls + rs
    + (if 1 < statusNum o then (statusNum o - 1) * division.length else 0)

/-- `pgbar::init_length` (lines 821-838): optionally recompute `cnt_length_`
from the total, then recompute `status_length_` from the enabled fields. -/
def init_length (s : Pgbar) (update_cnt_len : Bool) : Pgbar :=
  let s1 := if update_cnt_len
    then { s with cnt_length := cntLengthOf s.task_cnt.num_tasks } else s
  { s1 with
      status_length := statusLengthOf s1.option s1.cnt_length
        s1.lstatus.length s1.rstatus.length }

/-- The `pgbar(SizeT, SizeT, StreamObj&)` constructor (lines 840-869):
default option `style::entire`, default glyphs/brackets, `bar_length_ = 30`,
then `init_length`.  `tty` is the result of `check_output_stream`. -/
def mkPgbar (total each_step : Nat) (tty : Bool) : Pgbar :=
  init_length
    { update_flag := false
      option := ctrlEntire
      todo_col := ""
      done_col := ""
      status_col := "\x1b[36m"
      todo_ch := " "
      done_ch := "-"
      startpoint := "["
      endpoint := "]"
      lstatus := "[ "
      rstatus := " ]"
      task_cnt := ⟨total, each_step, 0⟩
      bar_length := 30
      cnt_length := 1
      status_length := 0
      in_tty := tty } true

/-- `pgbar::is_updated` (lines 920-922). -/
def is_updated (s : Pgbar) : Bool := s.update_flag

/-- `pgbar::is_done` (lines 923-925): `is_updated() && task_cnt_.is_ended()`. -/
def is_done (s : Pgbar) : Bool := s.update_flag && s.task_cnt.is_ended

/-- `pgbar::reset` (lines 927-934): no-op unless updated; otherwise zero the
counter (`task_cnt_ = 0`), suspend the renderer (which touches only the
renderer and the shared render statics), and clear `update_flag_`. -/
def reset (s : Pgbar) : Pgbar :=
  if !s.update_flag then s
  else { s with task_cnt := s.task_cnt.assign 0, update_flag := false }

/-- `pgbar::do_update` (lines 764-789) at the level of the per-instance
state: throw on a finished bar, then on a zero task total; otherwise the
first call activates the renderer — whose first `rendering()` sets
`update_flag_ = true` before `do_update` returns (the multithread `active()`
spins until that render happened; the singlethread `active()` runs it
inline) — and then the increment functor runs.  The render/suspend calls
mutate only the shared render statics and the stream, modelled separately by
`rendering`.  On error the C++ `throw` happens before any mutation, so the
pair returns the state unchanged. -/
def do_update (s : Pgbar) (invokable : CounterIt → CounterIt) :
    Option PgErr × Pgbar :=
  if is_done s then (some .invalidState, s)
  else if s.task_cnt.num_tasks = 0 then (some .invalidConfig, s)
  else
    let s1 := { s with update_flag := true }
    (none, { s1 with task_cnt := invokable s1.task_cnt })

/-- `pgbar::update()` (lines 1070-1072): `++task_cnt_`. -/
def updatePlain (s : Pgbar) : Option PgErr × Pgbar :=
  do_update s CounterIt.inc

/-- `pgbar::update(SizeT)` (lines 1077-1081): `task_cnt_ += next_step`. -/
def updateByN (s : Pgbar) (next_step : Nat) : Option PgErr × Pgbar :=
  do_update s (fun c => c.incBy next_step)

/-- `pgbar::set_step` (lines 937-941). -/
def set_step (s : Pgbar) (n : Nat) : Option PgErr × Pgbar :=
  if s.update_flag then (none, s)
  else if n = 0 then (some .invalidConfig, s)
  else (none, { s with task_cnt := s.task_cnt.set_step n })

/-- `pgbar::set_task` (lines 944-951). -/
def set_task (s : Pgbar) (n : Nat) : Option PgErr × Pgbar :=
  if s.update_flag then (none, s)
  else if n = 0 then (some .invalidConfig, s)
  else (none, init_length { s with task_cnt := s.task_cnt.set_task n } true)

/-- `pgbar::set_done` (lines 953-957): assigns `done_ch_`. -/
def set_done (s : Pgbar) (v : String) : Pgbar :=
  if s.update_flag then s else { s with done_ch := v }

/-- `pgbar::set_todo` (lines 959-963): assigns `todo_ch_`. -/
def set_todo (s : Pgbar) (v : String) : Pgbar :=
  if s.update_flag then s else { s with todo_ch := v }

/-- `pgbar::set_startpoint` (lines 965-969). -/
def set_startpoint (s : Pgbar) (v : String) : Pgbar :=
  if s.update_flag then s else { s with startpoint := v }

/-- `pgbar::set_endpoint` (lines 971-975). -/
def set_endpoint (s : Pgbar) (v : String) : Pgbar :=
  if s.update_flag then s else { s with endpoint := v }

/-- `pgbar::set_lstatus` (lines 977-982): the assignment is guarded by
`is_updated()`, the `init_length(*this, false)` call is not. -/
def set_lstatus (s : Pgbar) (v : String) : Pgbar :=
  let s1 := if s.update_flag then s else { s with lstatus := v }
  init_length s1 false

/-- `pgbar::set_rstatus` (lines 984-989): same unconditional `init_length`. -/
def set_rstatus (s : Pgbar) (v : String) : Pgbar :=
  let s1 := if s.update_flag then s else { s with rstatus := v }
  init_length s1 false

/-- `pgbar::set_bar_length` (lines 991-995). -/
def set_bar_length (s : Pgbar) (n : Nat) : Pgbar :=
  if s.update_flag then s else { s with bar_length := n }

/-- `pgbar::set_todo_col` (lines 997-1001). -/
def set_todo_col (s : Pgbar) (v : String) : Pgbar :=
  if s.update_flag then s else { s with todo_col := v }

/-- `pgbar::set_done_col` (lines 1003-1007). -/
def set_done_col (s : Pgbar) (v : String) : Pgbar :=
  if s.update_flag then s else { s with done_col := v }

/-- `pgbar::set_status_col` (lines 1009-1013). -/
def set_status_col (s : Pgbar) (v : String) : Pgbar :=
  if s.update_flag then s else { s with status_col := v }

/-- `pgbar::set_style(style::Type)` (lines 1015-1020): the bitmask
assignment is guarded, the `init_length(*this, false)` call is not. -/
def set_style (s : Pgbar) (o : Ctrl) : Pgbar :=
  let s1 := if s.update_flag then s else { s with option := o }
  init_length s1 false

/-- The update-path events a caller can issue against one bar after
construction: `update()`, `update(n)`, `reset()`. -/
inductive Ev where
  | plain
  | byN (n : Nat)
  | reset
deriving DecidableEq, Repr

/-- One caller event applied to the per-instance state (errors leave the
state unchanged, as in `do_update`). -/
def stepEv (s : Pgbar) : Ev → Pgbar
  | .plain => (updatePlain s).2
  | .byN n => (updateByN s n).2
  | .reset => reset s

/-- A whole caller session: a sequence of events from a starting state. -/
def runEvents (s : Pgbar) (evs : List Ev) : Pgbar := evs.foldl stepEv s

/-- `__detail::reflash_rate` (lines 132-134), in nanoseconds:
`std::chrono::microseconds(35)` = 35 000 ns.  (The comment above it in the
source reads "The refresh rate is capped at about 25 Hz".) -/
def reflash_rate_ns : Nat := 35 * 1000

/-- The state of the `singlethread` renderer (lines 376-451):
`active_flag_` and `last_invoke_` (nanoseconds). -/
structure Singlethread where
  active_flag : Bool
  last_invoke : Nat
deriving DecidableEq, Repr

/-- `singlethread::render` (lines 442-450): do nothing when inactive or when
less than `reflash_rate` has elapsed since `last_invoke_`; otherwise record
the time and run the task.  The returned `Bool` says whether the task
(an actual redraw) ran. -/
def Singlethread.render (st : Singlethread) (now : Nat) : Bool × Singlethread :=
  if !st.active_flag then (false, st)
  else if now - st.last_invoke < reflash_rate_ns then (false, st)
  else (true, { st with last_invoke := now })

/-- `formatter<txt_layout::align_center>` (lines 505-527, pre-C++20 branch):
identity when the string is at least the target width, otherwise pad with
blanks, the right side getting `⌊pad/2⌋`. -/
def formatter_center (width : Nat) (str : String) : String :=
  if width = 0 then ""
  else if width ≤ str.length then str
  else
    let w := width - str.length
    let r := w / 2
    String.mk (List.replicate (w - r) ' ') ++ str
      ++ String.mk (List.replicate r ' ')

/-- Exact subtraction on `ℚ` written through `mkRat` so that it evaluates
inside the kernel (the library `Rat.sub` is `@[irreducible]` here);
`ratSub_eq_sub` certifies that it is ordinary rational subtraction. -/
def ratSub (a b : ℚ) : ℚ :=
  mkRat (a.num * (b.den : Int) - b.num * (a.den : Int)) (a.den * b.den)

/-- Exact division of two naturals into `ℚ`, written through `mkRat` for
kernel evaluation; `ratNatDiv_eq_div` certifies it.  (`den = 0` gives 0,
matching `ℚ`'s division-by-zero convention; the C++ double would give
NaN/inf there, but every caller guards `total ≠ 0`.) -/
def ratNatDiv (n d : Nat) : ℚ := mkRat (n : Int) d

/-- The `splice` lambda in `show_rate` (lines 608-612):
`std::to_string(val)` then truncate after two decimals.  Modelled as exact
truncation of the rational to two decimal places (`std::to_string` prints
six decimals of the double, rounded, before the cut). -/
def spliceQ (val : ℚ) : String :=
  let n : Int := ⌊val * 100⌋
  let fp := (n % 100).toNat
  toString (n / 100) ++ "." ++ (if fp < 10 then "0" else "") ++ toString fp

/-- The frequency computation of `show_rate` (lines 604-606): 10^9 ns
divided by the averaged interval, or `~SizeT(0) = 2^64 - 1` when the average
is zero ("The invoking rate is too fast to calculate"). -/
def rate_frequency (avg : Nat) : Nat :=
  if avg ≠ 0 then 1000000000 / avg else wordSize - 1

/-- `pgbar::show_rate` (lines 593-628).  Its function-local
`static decltype(interval) invoke_interval` is threaded explicitly as `g`
(nanoseconds): reset to zero on the not-yet-updated path, otherwise averaged
with the new interval by `(g + interval) / 2` (a wrap-around duration sum).
Returns the formatted field and the new static value.  The function is
total: the zero average is diverted to `2^64 - 1` before any division. -/
def show_rate (updated : Bool) (g : Nat) (interval : Nat) : String × Nat :=
  if !updated then (formatter_center rate_len "0.00 Hz", 0)
  else
    let g2 := ((g + interval) % wordSize) / 2
    let frequency := rate_frequency g2
    let rate :=
      if frequency < 1000 then spliceQ frequency ++ " Hz"
      else if frequency < 1000000 then
        spliceQ (ratNatDiv frequency 1000) ++ " kHz"
      else if frequency < 1000000000 then
        spliceQ (ratNatDiv frequency 1000000) ++ " MHz"
      else
        let temp : ℚ := ratNatDiv frequency 1000000000
        if mkRat 99999 100 < temp then "> 1.00 GHz"
        else spliceQ temp ++ " GHz"
    (formatter_center rate_len rate, g2)

/-- The function-local `static` variables of `pgbar::rendering`
(lines 718-721) together with the one inside `show_rate` (line 594).  In the
C++ these are per-template-instantiation statics, shared by every bar object
of the same `pgbar<StreamObj, RenderMode>` type; they are therefore modelled
as a state separate from `Pgbar`. -/
structure Statics where
  done_flag : Bool
  last_bar_progress : ℚ
  invoke_interval : Nat
  first_invoked : Nat
  rate_interval : Nat
deriving DecidableEq, Repr

/-- One line written by `generate_barcode`: the `is_updated()` value at
generation time, the controller bitmask used, the computed `total_length`
(the printed width of the enabled fields), and the number of backspaces of
the erase prefix, `is_updated() ? total_length : 0` (lines 710-713). -/
structure Frame where
  updated : Bool
  ctrl : Ctrl
  width : Nat
  eraseLen : Nat
deriving DecidableEq, Repr

/-- `pgbar::generate_barcode` (lines 671-714), tracking the width arithmetic
of the assembled line: `total_length` accumulates the bar segment width
(`bar_length_ + startpoint + endpoint + 1 blank`) when the controller's bar
bit is set, plus `status_length_` when nonzero; the erase prefix is
`total_length` backspace characters if `is_updated()`, else empty.  The
call into `show_rate` (taken when the rate bit is set) advances that
function's static average, threaded through `g`.  The glyph/color text of
the line (zero or fixed printed width by construction) is not retained. -/
def generate_barcode (s : Pgbar) (updated : Bool) (ctrl : Ctrl)
    (num_per : ℚ) (num_done : Nat) (interval : Nat) (g : Statics) :
    Frame × Statics :=
  let w_bar := if ctrl.bar
    then s.bar_length + s.startpoint.length + s.endpoint.length + 1 else 0
  let w_status := if s.status_length ≠ 0 then s.status_length else 0
  let total_length := w_bar + w_status
  let g1 := if ctrl.rate
    then { g with rate_interval := (show_rate updated g.rate_interval interval).2 }
    else g
  let _ := num_per
  let _ := num_done
  ({ updated := updated, ctrl := ctrl, width := total_length,
     eraseLen := if updated then total_length else 0 }, g1)

/-- The result of one `rendering()` invocation: the frames written to the
stream in order, the new shared statics, and the new `update_flag_`. -/
structure RenderOut where
  frames : List Frame
  statics : Statics
  flag : Bool
deriving DecidableEq, Repr

/-- `pgbar::rendering` (lines 717-762).  First invocation
(`!is_updated()`): clear `done_flag` and `last_bar_progress_`, and in a tty
reset the interval statics and emit the initial (0%) frame, then set
`update_flag_`.  Then: return if `done_flag`; otherwise in a tty compute the
average interval and the progress fraction, suppress the bar bit when the
fraction advanced less than 0.01 since the last bar repaint, and emit a
frame; finally if `is_done()`, emit the 100% frame (with trailing newline)
and set `done_flag`. -/
def rendering (s : Pgbar) (g : Statics) (now : Nat) : RenderOut :=
  let init :=
    if !s.update_flag then
      let gA := { g with done_flag := false, last_bar_progress := 0 }
      if s.in_tty then
        let gB := { gA with invoke_interval := 0, first_invoked := now }
        let fg := generate_barcode s false s.option 0 0 0 gB
        (([fg.1] : List Frame), fg.2)
      else (([] : List Frame), gA)
    else (([] : List Frame), g)
  let frames0 := init.1
  let g0 := init.2
  if g0.done_flag then ⟨frames0, g0, true⟩
  else
    let mid :=
      if s.in_tty then
        let interval := if s.task_cnt.current ≠ 0
          then (now - g0.first_invoked) / s.task_cnt.current
          else (now - g0.first_invoked) / 1
        let gC := { g0 with invoke_interval := interval }
        let num_percent : ℚ :=
          ratNatDiv s.task_cnt.current s.task_cnt.num_tasks
        let cg := if ratSub num_percent gC.last_bar_progress < mkRat 1 100
          then ({ s.option with bar := false }, gC)
          else (s.option, { gC with last_bar_progress := num_percent })
        let fg := generate_barcode s true cg.1 num_percent
          s.task_cnt.current interval cg.2
        (([fg.1] : List Frame), fg.2)
      else (([] : List Frame), g0)
    let frames1 := mid.1
    let g1 := mid.2
    if s.task_cnt.is_ended then
      if s.in_tty then
        let fg := generate_barcode s true s.option 1 s.task_cnt.num_tasks
          g1.invoke_interval g1
        ⟨frames0 ++ frames1 ++ [fg.1], { fg.2 with done_flag := true }, true⟩
      else ⟨frames0 ++ frames1, { g1 with done_flag := true }, true⟩
    else ⟨frames0 ++ frames1, g1, true⟩

/-- Two bar objects of the same template instantiation and the statics they
share (claim C5's two-instance configuration). -/
structure World where
  a : Pgbar
  b : Pgbar
  g : Statics
deriving DecidableEq, Repr

/-- A `rendering()` run of instance `a`: it reads and writes the shared
statics and `a`'s own `update_flag_`; `b`'s fields are not inputs. -/
def worldRenderA (w : World) (now : Nat) : World × List Frame :=
  let r := rendering w.a w.g now
  (⟨{ w.a with update_flag := r.flag }, w.b, r.statics⟩, r.frames)

/-- An `update()` call on instance `a` at the state level. -/
def worldUpdateA (w : World) : Option PgErr × World :=
  let r := updatePlain w.a
  (r.1, ⟨r.2, w.b, w.g⟩)

/-- `k` applications of `counter_iterator::operator++` (the plain-`update()`
advance) starting from the freshly constructed counter `⟨T, S, 0⟩`. -/
def advanceK (T S : Nat) : Nat → CounterIt
  | 0 => ⟨T, S, 0⟩
  | k + 1 => (advanceK T S k).inc

/-- The derived-length coherence every reachable bar object maintains:
`status_length_` is the `init_length` recomputation of the current style
fields.  Constructors establish it and every operation preserves it
(`reachable_consistent`). -/
def consistent (s : Pgbar) : Prop :=
  s.status_length
    = statusLengthOf s.option s.cnt_length s.lstatus.length s.rstatus.length

/-- The bar objects reachable from a constructor through the public
mutators (update events and every configuration setter). -/
inductive Reachable : Pgbar → Prop where
  | mk (total each_step : Nat) (tty : Bool) : Reachable (mkPgbar total each_step tty)
  | step (s : Pgbar) (e : Ev) : Reachable s → Reachable (stepEv s e)
  | tsk (s : Pgbar) (n : Nat) : Reachable s → Reachable (set_task s n).2
  | stp (s : Pgbar) (n : Nat) : Reachable s → Reachable (set_step s n).2
  | dch (s : Pgbar) (v : String) : Reachable s → Reachable (set_done s v)
  | tch (s : Pgbar) (v : String) : Reachable s → Reachable (set_todo s v)
  | spt (s : Pgbar) (v : String) : Reachable s → Reachable (set_startpoint s v)
  | ept (s : Pgbar) (v : String) : Reachable s → Reachable (set_endpoint s v)
  | lst (s : Pgbar) (v : String) : Reachable s → Reachable (set_lstatus s v)
  | rst (s : Pgbar) (v : String) : Reachable s → Reachable (set_rstatus s v)
  | blen (s : Pgbar) (n : Nat) : Reachable s → Reachable (set_bar_length s n)
  | tcol (s : Pgbar) (v : String) : Reachable s → Reachable (set_todo_col s v)
  | dcol (s : Pgbar) (v : String) : Reachable s → Reachable (set_done_col s v)
  | scol (s : Pgbar) (v : String) : Reachable s → Reachable (set_status_col s v)
  | sty (s : Pgbar) (o : Ctrl) : Reachable s → Reachable (set_style s o)

/-- A concrete started bar: `pgbar(2, 1)` after one `update()`. -/
def c8state : Pgbar := stepEv (mkPgbar 2 1 true) Ev.plain

/-- `log10fuel` computes `Nat.log 10` when given enough fuel. -/
theorem log10fuel_eq_log (f : Nat) :
    ∀ n : Nat, n ≤ f → log10fuel f n = Nat.log 10 n := by
  induction f with
  | zero =>
    intro n h
    have hn : n = 0 := Nat.le_zero.mp h
    subst hn
    simp [log10fuel]
  | succ f ih =>
    intro n h
    show (if n < 10 then 0 else log10fuel f (n / 10) + 1) = Nat.log 10 n
    by_cases h10 : n < 10
    · rw [if_pos h10]
      exact (Nat.log_eq_zero_iff.mpr (Or.inl h10)).symm
    · rw [if_neg h10]
      have hn10 : n / 10 ≤ f := by omega
      conv_rhs => rw [Nat.log]
      rw [dif_pos (⟨by omega, by omega⟩ : 10 ≤ n ∧ 1 < 10)]
      rw [ih (n / 10) hn10]

/-- `log10floor` agrees with `Nat.log 10`. -/
theorem log10floor_eq_log (n : Nat) : log10floor n = Nat.log 10 n :=
  log10fuel_eq_log n n le_rfl

/-- `ratSub` agrees with the subtraction of `ℚ`. -/
theorem ratSub_eq_sub (a b : ℚ) : ratSub a b = a - b := by
  have ha : ((a.den : ℚ)) ≠ 0 := by
    exact_mod_cast a.den_nz
  have hb : ((b.den : ℚ)) ≠ 0 := by
    exact_mod_cast b.den_nz
  unfold ratSub
  rw [Rat.mkRat_eq_div]
  conv_rhs => rw [← Rat.num_div_den a, ← Rat.num_div_den b]
  push_cast
  rw [div_sub_div _ _ ha hb]
  ring

/-- `ratNatDiv` agrees with cast-and-divide on `ℚ`. -/
theorem ratNatDiv_eq_div (n d : Nat) : ratNatDiv n d = (n : ℚ) / (d : ℚ) := by
  unfold ratNatDiv
  rw [Rat.mkRat_eq_div]
  push_cast
  rfl

/-- Claim C10: `is_ended()` is total and, in every state with
`current ≥ total` (overshoot included), returns `true` through its first
disjunct, so the unsigned subtraction `total - current` is never evaluated
where it would wrap.  The model's `CounterIt.is_ended` is a total function
by construction. -/
theorem c10_is_ended_total (total step current : Nat)
    (h : total ≤ current) :
    CounterIt.is_ended ⟨total, step, current⟩ = true := by
  unfold CounterIt.is_ended
  simp only [Bool.or_eq_true, decide_eq_true_eq]
  exact Or.inl h

/-- Witness for C10 at an overshoot state (`current = 5 > total = 3`). -/
theorem c10_is_ended_total_witness :
    CounterIt.is_ended ⟨3, 2, 5⟩ = true :=
  c10_is_ended_total 3 2 5 (by decide)

/-- Claim C4: the refresh constant.  The code's `reflash_rate` is
`std::chrono::microseconds(35)` = 35 000 ns, not the ~35 ms
(= 35 000 000 ns) the spec claims, and the synchronous strategy therefore
performs an actual redraw after only 40 µs of elapsed time — far below the
claimed ≈28 Hz cap (and contradicting the source's own comment "The refresh
rate is capped at about 25 Hz"). -/
theorem c4_reflash_rate_is_35_microseconds :
    reflash_rate_ns = 35000 ∧ reflash_rate_ns ≠ 35000000 ∧
    (Singlethread.render ⟨true, 0⟩ 40000).1 = true ∧ 40000 < 35000000 := by
  decide

/-- Claim C6: on a finished bar both `update()` and `update(n)` raise
InvalidState, and on a not-yet-started bar with zero total they raise
InvalidConfig; in each case the `throw` precedes `active()` and the
increment, so the returned state is the input state, unchanged.  (A state
with zero total that is already started is unreachable: the first update
would have thrown.) -/
theorem c6_update_errors (s : Pgbar) (n : Nat) :
    (is_done s = true →
      updatePlain s = (some PgErr.invalidState, s) ∧
      updateByN s n = (some PgErr.invalidState, s)) ∧
    (s.update_flag = false → s.task_cnt.num_tasks = 0 →
      updatePlain s = (some PgErr.invalidConfig, s) ∧
      updateByN s n = (some PgErr.invalidConfig, s)) := by
  constructor
  · intro h
    constructor <;> simp [updatePlain, updateByN, do_update, h]
  · intro h1 h2
    constructor <;> simp [updatePlain, updateByN, do_update, is_done, h1, h2]

/-- Witness for C6: a finished bar (total 2, step 1, current 2, started)
gets InvalidState; a freshly constructed bar with total 0 gets
InvalidConfig; both states are returned unchanged. -/
theorem c6_update_errors_witness :
    updatePlain { mkPgbar 2 1 true with
        update_flag := true, task_cnt := ⟨2, 1, 2⟩ }
      = (some PgErr.invalidState,
          { mkPgbar 2 1 true with update_flag := true, task_cnt := ⟨2, 1, 2⟩ }) ∧
    updatePlain (mkPgbar 0 1 true)
      = (some PgErr.invalidConfig, mkPgbar 0 1 true) :=
  ⟨((c6_update_errors
      { mkPgbar 2 1 true with update_flag := true, task_cnt := ⟨2, 1, 2⟩ } 0).1
        (by decide)).1,
   ((c6_update_errors (mkPgbar 0 1 true) 0).2 (by decide) (by decide)).1⟩

/-- Claim C7: `reset()` on a finished bar clears `is_done` (the public
finished predicate, `is_updated && is_ended`), zeroes `current`, keeps
`total` and `step`, and a second `reset()` before any update returns the
state unchanged (the `!is_updated()` fast path). -/
theorem c7_reset (s : Pgbar) (h : is_done s = true) :
    is_done (reset s) = false ∧
    (reset s).task_cnt.current = 0 ∧
    (reset s).task_cnt.num_tasks = s.task_cnt.num_tasks ∧
    (reset s).task_cnt.step = s.task_cnt.step ∧
    reset (reset s) = reset s := by
  have hf : s.update_flag = true := by
    unfold is_done at h
    simp only [Bool.and_eq_true] at h
    exact h.1
  simp [reset, hf, is_done, CounterIt.assign]

/-- Witness for C7 at a finished bar (total 4, step 2, current 4). -/
theorem c7_reset_witness :
    is_done (reset { mkPgbar 4 2 true with
        update_flag := true, task_cnt := ⟨4, 2, 4⟩ }) = false ∧
    (reset { mkPgbar 4 2 true with
        update_flag := true, task_cnt := ⟨4, 2, 4⟩ }).task_cnt.current = 0 ∧
    (reset { mkPgbar 4 2 true with
        update_flag := true, task_cnt := ⟨4, 2, 4⟩ }).task_cnt.num_tasks
      = ({ mkPgbar 4 2 true with
          update_flag := true, task_cnt := ⟨4, 2, 4⟩ } : Pgbar).task_cnt.num_tasks ∧
    (reset { mkPgbar 4 2 true with
        update_flag := true, task_cnt := ⟨4, 2, 4⟩ }).task_cnt.step
      = ({ mkPgbar 4 2 true with
          update_flag := true, task_cnt := ⟨4, 2, 4⟩ } : Pgbar).task_cnt.step ∧
    reset (reset { mkPgbar 4 2 true with
        update_flag := true, task_cnt := ⟨4, 2, 4⟩ })
      = reset { mkPgbar 4 2 true with
          update_flag := true, task_cnt := ⟨4, 2, 4⟩ } :=
  c7_reset { mkPgbar 4 2 true with update_flag := true, task_cnt := ⟨4, 2, 4⟩ }
    (by decide)

/-- Claim C5 counterexample.  Two started instances of the same template
instantiation share the function-local statics of `rendering()` /
`show_rate()`.  Instance `b` (total 1000, current 500) emits a frame when it
renders from fresh statics; but if instance `a` (total 10, current 10,
finished) renders first through the shared world, `a`'s final render sets
the shared `done_flag`, after which `b`'s render emits nothing at all.  So
rendering one instance changes both the render state and the subsequent
output of the other, refuting the exclusive-ownership / noninterference
claim at this concrete input. -/
theorem c5_shared_statics_counterexample :
    (rendering
        (World.b ⟨{ mkPgbar 10 1 true with update_flag := true, task_cnt := ⟨10, 1, 10⟩ },
                  { mkPgbar 1000 1 true with update_flag := true, task_cnt := ⟨1000, 1, 500⟩ },
                  ⟨false, 0, 0, 0, 0⟩⟩)
        (World.g ⟨{ mkPgbar 10 1 true with update_flag := true, task_cnt := ⟨10, 1, 10⟩ },
                  { mkPgbar 1000 1 true with update_flag := true, task_cnt := ⟨1000, 1, 500⟩ },
                  ⟨false, 0, 0, 0, 0⟩⟩)
        100).frames ≠ [] ∧
    (worldRenderA
        ⟨{ mkPgbar 10 1 true with update_flag := true, task_cnt := ⟨10, 1, 10⟩ },
         { mkPgbar 1000 1 true with update_flag := true, task_cnt := ⟨1000, 1, 500⟩ },
         ⟨false, 0, 0, 0, 0⟩⟩ 50).1.g.done_flag = true ∧
    (Statics.done_flag ⟨false, 0, 0, 0, 0⟩) = false ∧
    (rendering
        ((worldRenderA
            ⟨{ mkPgbar 10 1 true with update_flag := true, task_cnt := ⟨10, 1, 10⟩ },
             { mkPgbar 1000 1 true with update_flag := true, task_cnt := ⟨1000, 1, 500⟩ },
             ⟨false, 0, 0, 0, 0⟩⟩ 50).1.b)
        ((worldRenderA
            ⟨{ mkPgbar 10 1 true with update_flag := true, task_cnt := ⟨10, 1, 10⟩ },
             { mkPgbar 1000 1 true with update_flag := true, task_cnt := ⟨1000, 1, 500⟩ },
             ⟨false, 0, 0, 0, 0⟩⟩ 50).1.g)
        100).frames = [] := by
  decide

/-- Claim C5 amended: each instance does exclusively own its Counter, its
Style Configuration and its `update_flag_` — rendering or updating instance
`a` never changes any field of instance `b` — but the Render State
(`done_flag`, `last_bar_progress_`, the rolling rate average,
`first_invoked`) lives in function-local statics shared per template
instantiation, through which one instance's render changes the other's
subsequent output (see the counterexample). -/
theorem c5_instance_fields_owned (w : World) (now : Nat) :
    (worldRenderA w now).1.b = w.b ∧ (worldUpdateA w).2.b = w.b :=
  ⟨rfl, rfl⟩

/-- Claim C1 counterexample: `pgbar(total = 1, each_step = 2)` (both ≥ 1),
one plain `update()`: `operator++` adds the step without clamping, the call
succeeds, and `current = 2 > total = 1`.  The saturating-increment invariant
`current ≤ total` is violated. -/
theorem c1_overshoot_counterexample :
    (updatePlain (mkPgbar 1 2 true)).1 = none ∧
    (updatePlain (mkPgbar 1 2 true)).2.task_cnt.current = 2 ∧
    (updatePlain (mkPgbar 1 2 true)).2.task_cnt.num_tasks = 1 ∧
    ¬((updatePlain (mkPgbar 1 2 true)).2.task_cnt.current
        ≤ (updatePlain (mkPgbar 1 2 true)).2.task_cnt.num_tasks) := by
  decide

/-- One caller event preserves the counter bound `current ≤ total` (given
`step ≤ total`), the fixed `total`/`step`, and "not started implies
`current = 0`".  `update(n)` clamps unconditionally; plain `update()` can
only run from a non-ended state (or from `current = 0` on the first call),
in both of which `current + step ≤ total`. -/
theorem stepEv_bound (T S : Nat) (hS : 0 < S) (hST : S ≤ T) (hT : T < wordSize)
    (s : Pgbar) (e : Ev)
    (h1 : s.task_cnt.num_tasks = T) (h2 : s.task_cnt.step = S)
    (h3 : s.task_cnt.current ≤ T)
    (h4 : s.update_flag = false → s.task_cnt.current = 0) :
    (stepEv s e).task_cnt.num_tasks = T ∧ (stepEv s e).task_cnt.step = S ∧
    (stepEv s e).task_cnt.current ≤ T ∧
    ((stepEv s e).update_flag = false → (stepEv s e).task_cnt.current = 0) := by
  cases e with
  | reset =>
    by_cases hf : s.update_flag = true
    · simp [stepEv, reset, hf, CounterIt.assign, h1, h2]
    · simp only [Bool.not_eq_true] at hf
      simp [stepEv, reset, hf, h1, h2, h3, h4]
  | plain =>
    simp only [stepEv, updatePlain, do_update]
    by_cases hd : is_done s = true
    · rw [if_pos hd]
      exact ⟨h1, h2, h3, h4⟩
    · rw [if_neg hd]
      by_cases hz : s.task_cnt.num_tasks = 0
      · exfalso; omega
      · rw [if_neg hz]
        simp only [Bool.not_eq_true] at hd
        have hcur : s.task_cnt.current + S ≤ T := by
          by_cases hf : s.update_flag = true
          · unfold is_done at hd
            rw [hf] at hd
            simp only [Bool.true_and] at hd
            unfold CounterIt.is_ended at hd
            simp only [Bool.or_eq_false_iff, decide_eq_false_iff_not,
              not_lt, not_le] at hd
            rw [h1, h2] at hd
            omega
          · simp only [Bool.not_eq_true] at hf
            rw [h4 hf]
            omega
        refine ⟨h1, h2, ?_, fun hcon => Bool.noConfusion hcon⟩
        show (s.task_cnt.current + s.task_cnt.step) % wordSize ≤ T
        rw [h2, Nat.mod_eq_of_lt (by omega)]
        exact hcur
  | byN n =>
    simp only [stepEv, updateByN, do_update]
    by_cases hd : is_done s = true
    · rw [if_pos hd]
      exact ⟨h1, h2, h3, h4⟩
    · rw [if_neg hd]
      by_cases hz : s.task_cnt.num_tasks = 0
      · exfalso; omega
      · rw [if_neg hz]
        refine ⟨h1, h2, ?_, fun hcon => Bool.noConfusion hcon⟩
        show (if s.task_cnt.num_tasks < (s.task_cnt.current + n) % wordSize
          then s.task_cnt.num_tasks
          else (s.task_cnt.current + n) % wordSize) ≤ T
        split <;> omega

/-- The event-sequence closure of `stepEv_bound`. -/
theorem runEvents_bound (T S : Nat) (hS : 0 < S) (hST : S ≤ T)
    (hT : T < wordSize) :
    ∀ (evs : List Ev) (s : Pgbar),
      s.task_cnt.num_tasks = T → s.task_cnt.step = S →
      s.task_cnt.current ≤ T →
      (s.update_flag = false → s.task_cnt.current = 0) →
      (runEvents s evs).task_cnt.current ≤ T := by
  intro evs
  induction evs with
  | nil => intro s _ _ h3 _; exact h3
  | cons e evs ih =>
    intro s h1 h2 h3 h4
    have h := stepEv_bound T S hS hST hT s e h1 h2 h3 h4
    exact ih (stepEv s e) h.1 h.2.1 h.2.2.1 h.2.2.2

/-- Claim C1 amended: `update(n)` always clamps at `total`, but plain
`update()` (`operator++`) does not; it can overshoot only on the very first
update of a bar whose `step > total` (the counterexample).  Whenever
`step ≤ total`, the invariant `current ≤ total` does hold after every
sequence of `update()` / `update(n)` / `reset()` calls. -/
theorem c1_current_le_total (T S : Nat) (tty : Bool) (evs : List Ev)
    (hS : 0 < S) (hST : S ≤ T) (hT : T < wordSize) :
    (runEvents (mkPgbar T S tty) evs).task_cnt.current ≤ T := by
  refine runEvents_bound T S hS hST hT evs (mkPgbar T S tty) rfl rfl ?_ ?_
  · show (0 : Nat) ≤ T
    exact Nat.zero_le T
  · intro _
    rfl

/-- Witness for C1 amended: total 3, step 2, two plain updates (the second
errors out on the finished bar and changes nothing); `current ≤ 3`. -/
theorem c1_current_le_total_witness :
    (runEvents (mkPgbar 3 2 true) [Ev.plain, Ev.plain]).task_cnt.current ≤ 3 :=
  c1_current_le_total 3 2 true [Ev.plain, Ev.plain]
    (by decide) (by decide) (by decide)

/-- `operator++` never touches `num_tasks_` or `step_`. -/
theorem advanceK_fields (T S k : Nat) :
    (advanceK T S k).num_tasks = T ∧ (advanceK T S k).step = S := by
  induction k with
  | zero => exact ⟨rfl, rfl⟩
  | succ k ih => simpa [advanceK, CounterIt.inc] using ih

/-- As long as `k * S` has not passed `total`, no wrap occurs and the
counter value after `k` advances is exactly `k * S`. -/
theorem advanceK_current (T S k : Nat) (hT : T < wordSize)
    (h : k * S ≤ T) :
    (advanceK T S k).current = k * S := by
  induction k with
  | zero => simp [advanceK]
  | succ k ih =>
    have hk : k * S ≤ T :=
      le_trans (Nat.mul_le_mul_right S (Nat.le_succ k)) h
    have hstep := (advanceK_fields T S k).2
    show ((advanceK T S k).current + (advanceK T S k).step) % wordSize
      = (k + 1) * S
    rw [ih hk, hstep, ← Nat.succ_mul]
    exact Nat.mod_eq_of_lt (lt_of_le_of_lt h hT)

/-- Claim C2 amended: starting from `current = 0`, plain advances make
`is_ended()` become true after exactly `⌊T / S⌋` calls — not `⌈T / S⌉`:
when `S ∤ T` the final partial step (`total - current < step`) already
counts as finished one call earlier, and when `S ∣ T` the two agree.  Stated
as: strictly fewer than `⌊T / S⌋` advances never finish, and `⌊T / S⌋`
advances do. -/
theorem c2_finishes_at_floor_div (T S k : Nat)
    (hT : 0 < T) (hS : 0 < S) (hW : T < wordSize) :
    (k < T / S → (advanceK T S k).is_ended = false) ∧
    (k = T / S → (advanceK T S k).is_ended = true) := by
  have hfields := advanceK_fields T S k
  constructor
  · intro hk
    have hk1 : (k + 1) * S ≤ T :=
      (Nat.le_div_iff_mul_le hS).mp (Nat.succ_le_of_lt hk)
    have hkS : k * S ≤ T :=
      le_trans (Nat.mul_le_mul_right S (Nat.le_succ k)) hk1
    have hcur := advanceK_current T S k hW hkS
    rw [Nat.succ_mul] at hk1
    unfold CounterIt.is_ended
    rw [hfields.1, hfields.2, hcur]
    simp only [Bool.or_eq_false_iff, decide_eq_false_iff_not, not_le, not_lt]
    generalize k * S = m at hk1 ⊢
    constructor <;> omega
  · intro hk
    subst hk
    have hdm := Nat.div_add_mod T S
    rw [Nat.mul_comm] at hdm
    have hr : T % S < S := Nat.mod_lt T hS
    have hkS : T / S * S ≤ T := Nat.div_mul_le_self T S
    have hcur := advanceK_current T S (T / S) hW hkS
    unfold CounterIt.is_ended
    rw [hfields.1, hfields.2, hcur]
    simp only [Bool.or_eq_true, decide_eq_true_eq]
    right
    generalize T / S * S = m at hdm ⊢
    omega

/-- Witness for C2 amended at T = 5, S = 2: finished after `5 / 2 = 2`
advances. -/
theorem c2_finishes_at_floor_div_witness :
    (advanceK 5 2 2).is_ended = true :=
  (c2_finishes_at_floor_div 5 2 2 (by decide) (by decide) (by decide)).2
    (by decide)

/-- Claim C2 counterexample: for T = 5, S = 2 the counter is already
finished after 2 advance calls, strictly earlier than the claimed
`ceil(5 / 2) = (5 + 2 - 1) / 2 = 3` calls. -/
theorem c2_ceil_counterexample :
    (advanceK 5 2 2).is_ended = true ∧ (5 + 2 - 1) / 2 = 3 ∧ (2 : Nat) < 3 := by
  decide

/-- Claim C9: once the bar has started, `show_rate` never divides by zero —
a zero averaged interval is diverted to the maximum representable `SizeT`
value `2^64 - 1` — and any frequency whose GHz value exceeds 999.99 renders
as the exact 10-character string "> 1.00 GHz" (which `formatter` passes
through unpadded since it already fills `rate_len`).  The model is a total
function on all inputs: no error exists on the rendering path. -/
theorem c9_rate_saturates (g i : Nat) :
    (((g + i) % wordSize) / 2 = 0 →
      rate_frequency (((g + i) % wordSize) / 2) = wordSize - 1) ∧
    (999990000000 < rate_frequency (((g + i) % wordSize) / 2) →
      (show_rate true g i).1 = "> 1.00 GHz") := by
  constructor
  · intro h
    simp [rate_frequency, h]
  · intro hn
    have hq : mkRat 99999 100
        < ratNatDiv (rate_frequency (((g + i) % wordSize) / 2)) 1000000000 := by
      rw [ratNatDiv_eq_div]
      rw [show (mkRat 99999 100 : ℚ) = (99999 : ℚ) / 100 by
        rw [Rat.mkRat_eq_div]; norm_num]
      rw [div_lt_div_iff₀ (by norm_num) (by norm_num)]
      have hc : (999990000000 : ℚ)
          < (rate_frequency (((g + i) % wordSize) / 2) : ℚ) := by
        exact_mod_cast hn
      linarith
    unfold show_rate
    simp only [Bool.not_true, Bool.false_eq_true, if_false]
    rw [if_neg (by omega : ¬rate_frequency (((g + i) % wordSize) / 2) < 1000)]
    rw [if_neg (by omega : ¬rate_frequency (((g + i) % wordSize) / 2) < 1000000)]
    rw [if_neg (by omega :
      ¬rate_frequency (((g + i) % wordSize) / 2) < 1000000000)]
    rw [if_pos hq]
    decide

/-- Witness for C9 at `g = i = 0`: the averaged interval is zero, the
frequency becomes `2^64 - 1`, whose GHz value exceeds 999.99, and the
rendered field is exactly "> 1.00 GHz". -/
theorem c9_rate_saturates_witness :
    (show_rate true 0 0).1 = "> 1.00 GHz" :=
  (c9_rate_saturates 0 0).2 (by decide)

/-- Claim C3 counterexample: default bar, total 1000, step 1, first
`rendering()` invocation.  The initial frame is printed with all fields
(width 83: bar segment 33 plus status bar 50) and an empty erase prefix;
within the same invocation the second frame suppresses the bar (progress
advanced less than 1%) and emits an erase prefix of 50 backspaces — the
width of its own enabled fields — not the 83 printed by the previous frame,
refuting the claim as stated. -/
theorem c3_erase_prefix_counterexample :
    (rendering (mkPgbar 1000 1 true) ⟨false, 0, 0, 0, 0⟩ 0).frames.map
        Frame.eraseLen = [0, 50] ∧
    (rendering (mkPgbar 1000 1 true) ⟨false, 0, 0, 0, 0⟩ 0).frames.map
        Frame.width = [83, 50] ∧
    (50 : Nat) ≠ 83 := by
  decide

/-- Claim C3 amended: the erase prefix of every frame equals the total
printed width of the fields enabled for that same frame (the controller
`generate_barcode` is called with), and it is empty exactly on frames
generated while `is_updated()` is still false — which only happens for the
initial frame of a not-yet-started bar.  It coincides with the previous
frame's width only when the two frames enable the same field set; when the
bar segment is suppressed or reappears, the erase prefix tracks the current
frame, not the previous one (see the counterexample). -/
theorem gb_statics_done (s : Pgbar) (u : Bool) (c : Ctrl) (p : ℚ) (d i : Nat)
    (g : Statics) :
    ((generate_barcode s u c p d i g).2).done_flag = g.done_flag := by
  simp only [generate_barcode]
  split <;> rfl

theorem gb_frame_updated (s : Pgbar) (u : Bool) (c : Ctrl) (p : ℚ) (d i : Nat)
    (g : Statics) :
    ((generate_barcode s u c p d i g).1).updated = u := rfl

theorem gb_frame_erase (s : Pgbar) (u : Bool) (c : Ctrl) (p : ℚ) (d i : Nat)
    (g : Statics) :
    ((generate_barcode s u c p d i g).1).eraseLen
      = if ((generate_barcode s u c p d i g).1).updated
        then ((generate_barcode s u c p d i g).1).width else 0 := by
  simp only [generate_barcode]

theorem c3_erase_prefix_is_current_width (s : Pgbar) (g : Statics)
    (now : Nat) (f : Frame) (hf : f ∈ (rendering s g now).frames) :
    (f.eraseLen = if f.updated then f.width else 0) ∧
    (f.updated = false → s.update_flag = false) := by
  unfold rendering at hf
  by_cases hu : s.update_flag = true <;>
  by_cases ht : s.in_tty = true <;>
  by_cases he : s.task_cnt.is_ended = true <;>
  by_cases hd : g.done_flag = true <;>
    simp only [hu, ht, he, hd, gb_statics_done, Bool.not_true, Bool.not_false,
      Bool.false_eq_true, Bool.true_eq_false, if_false, if_true,
      List.nil_append, List.append_nil, List.mem_append, List.mem_singleton,
      List.mem_cons, List.not_mem_nil, or_false, false_or, or_assoc] at hf
  all_goals try simp only [Bool.not_eq_true] at hu
  all_goals
    rcases hf with rfl | rfl | rfl <;>
      refine ⟨gb_frame_erase _ _ _ _ _ _ _, ?_⟩ <;> rw [gb_frame_updated] <;>
      intro hcon <;> first | exact hu | exact Bool.noConfusion hcon

/-- `init_length` always (re)establishes `consistent`. -/
theorem consistent_init_length (s : Pgbar) (b : Bool) :
    consistent (init_length s b) := by
  cases b <;> rfl

/-- The update-path events preserve `consistent`: they touch only
`task_cnt_` and `update_flag_`. -/
theorem consistent_stepEv (s : Pgbar) (e : Ev) (h : consistent s) :
    consistent (stepEv s e) := by
  cases e with
  | plain =>
    simp only [stepEv, updatePlain, do_update]
    split
    · exact h
    · split
      · exact h
      · exact h
  | byN n =>
    simp only [stepEv, updateByN, do_update]
    split
    · exact h
    · split
      · exact h
      · exact h
  | reset =>
    simp only [stepEv, reset]
    split
    · exact h
    · exact h

/-- Every reachable bar object is `consistent`. -/
theorem reachable_consistent (s : Pgbar) (h : Reachable s) : consistent s := by
  induction h with
  | mk total each_step tty => exact consistent_init_length _ _
  | step s e _ ih => exact consistent_stepEv s e ih
  | tsk s n _ ih =>
    unfold set_task
    split
    · exact ih
    · split
      · exact ih
      · exact consistent_init_length _ _
  | stp s n _ ih =>
    unfold set_step
    split
    · exact ih
    · split
      · exact ih
      · exact ih
  | dch s v _ ih =>
    unfold set_done
    split
    · exact ih
    · exact ih
  | tch s v _ ih =>
    unfold set_todo
    split
    · exact ih
    · exact ih
  | spt s v _ ih =>
    unfold set_startpoint
    split
    · exact ih
    · exact ih
  | ept s v _ ih =>
    unfold set_endpoint
    split
    · exact ih
    · exact ih
  | lst s v _ ih => exact consistent_init_length _ _
  | rst s v _ ih => exact consistent_init_length _ _
  | blen s n _ ih =>
    unfold set_bar_length
    split
    · exact ih
    · exact ih
  | tcol s v _ ih =>
    unfold set_todo_col
    split
    · exact ih
    · exact ih
  | dcol s v _ ih =>
    unfold set_done_col
    split
    · exact ih
    · exact ih
  | scol s v _ ih =>
    unfold set_status_col
    split
    · exact ih
    · exact ih
  | sty s o _ ih => exact consistent_init_length _ _

/-- On a `consistent` state, the unconditional `init_length(*this, false)`
performed by `set_lstatus` / `set_rstatus` / `set_style` recomputes the
value `status_length_` already holds. -/
theorem init_length_self (s : Pgbar) (hc : consistent s) :
    init_length s false = s := by
  show { s with
      status_length := statusLengthOf s.option s.cnt_length
        s.lstatus.length s.rstatus.length } = s
  rw [← hc]

/-- Claim C8: once the bar has started (`update_flag_` true), every listed
configuration setter returns the state unchanged: the guarded ones return
`*this` immediately (`set_task`/`set_step` without even raising on a zero
argument), and the ones that run `init_length(*this, false)` unconditionally
recompute exactly the `status_length_` a reachable state already holds. -/
theorem c8_setters_noop_after_start (s : Pgbar) (n m : Nat) (v col : String)
    (o : Ctrl) (hr : Reachable s) (hu : s.update_flag = true) :
    set_task s n = (none, s) ∧ set_step s m = (none, s) ∧ set_done s v = s ∧
    set_todo s v = s ∧ set_startpoint s v = s ∧ set_endpoint s v = s ∧
    set_lstatus s v = s ∧ set_rstatus s v = s ∧ set_bar_length s n = s ∧
    set_todo_col s col = s ∧ set_done_col s col = s ∧
    set_status_col s col = s ∧ set_style s o = s := by
  have hc := reachable_consistent s hr
  have hil := init_length_self s hc
  refine ⟨?_, ?_, ?_, ?_, ?_, ?_, ?_, ?_, ?_, ?_, ?_, ?_, ?_⟩ <;>
    simp [set_task, set_step, set_done, set_todo, set_startpoint,
      set_endpoint, set_lstatus, set_rstatus, set_bar_length, set_todo_col,
      set_done_col, set_status_col, set_style, hu, hil]

/-- Witness for C8 at `c8state` (reachable, started): all thirteen setters
return the state unchanged. -/
theorem c8_setters_noop_after_start_witness :
    set_task c8state 5 = (none, c8state) ∧ set_step c8state 7 = (none, c8state) ∧
    set_done c8state "x" = c8state ∧ set_todo c8state "x" = c8state ∧
    set_startpoint c8state "x" = c8state ∧ set_endpoint c8state "x" = c8state ∧
    set_lstatus c8state "x" = c8state ∧ set_rstatus c8state "x" = c8state ∧
    set_bar_length c8state 5 = c8state ∧ set_todo_col c8state "" = c8state ∧
    set_done_col c8state "" = c8state ∧ set_status_col c8state "" = c8state ∧
    set_style c8state ⟨true, false, true, false, true⟩ = c8state :=
  c8_setters_noop_after_start c8state 5 7 "x" "" ⟨true, false, true, false, true⟩
    (Reachable.step (mkPgbar 2 1 true) Ev.plain (Reachable.mk 2 1 true))
    (by decide)

/-- Witness for C3 amended at the second frame of the counterexample run:
its erase prefix (50) equals its own width (50), and it is an
updated-at-emission frame. -/
theorem c3_erase_prefix_is_current_width_witness :
    ((⟨true, ⟨false, true, true, true, true⟩, 50, 50⟩ : Frame).eraseLen
      = if (⟨true, ⟨false, true, true, true, true⟩, 50, 50⟩ : Frame).updated
        then (⟨true, ⟨false, true, true, true, true⟩, 50, 50⟩ : Frame).width
        else 0) ∧
    ((⟨true, ⟨false, true, true, true, true⟩, 50, 50⟩ : Frame).updated = false →
      (mkPgbar 1000 1 true).update_flag = false) :=
  c3_erase_prefix_is_current_width (mkPgbar 1000 1 true) ⟨false, 0, 0, 0, 0⟩ 0
    ⟨true, ⟨false, true, true, true, true⟩, 50, 50⟩ (by decide)
